import Mathlib

/-!
Verification development for the MaxScale routing proxy sources.

Each section embeds a part of the C++ sources as executable Lean
definitions and proves properties of them.  Integer-typed C++ values are
modelled as `Int`/`Nat`; status bitmasks as `Nat`; fallible calls via
`Option`.  Side channels that only log are omitted.
-/

namespace MaxScale

/-! ## Server status flags (include/maxscale/target.hh) -/

def SERVER_MAINT : Nat := 1 <<< 1
def SERVER_MASTER : Nat := 1 <<< 3
def SERVER_SLAVE : Nat := 1 <<< 4
def SERVER_RELAY : Nat := 1 <<< 11

/-- Model of `mxs::Target::RLAG_UNDEFINED` (include/maxscale/target.hh line 301). -/
def RLAG_UNDEFINED : Int := -1

/-- C `INT_MAX`, the initial value of `best_priority` in
`RWSplitSession::get_slave_backend`. -/
def INT_MAX : Int := 2147483647

/-! ## Read/write split backend model
(server/modules/routing/readwritesplit/rwsplit_select_backends.cc)

An `RWBackend` is the per-session view of one backend server.  Fields
mirror the accessor calls made by the selection code:
`in_use()`, `can_connect()`, `target()->status()`,
`target()->replication_lag()`, `target()->rank()`,
`target()->gtid_pos(domain)`, `should_ignore_response()`,
`last_write()`, `stats().n_current_conns()`, `stats().n_current_ops()`,
`target()->response_time_average()` (abstracted to an integer score). -/

structure RWBackend where
  name : Nat
  inUse : Bool
  canConnect : Bool
  status : Nat
  rlag : Int
  rank : Int
  gtidPos : Nat → Nat
  busy : Bool
  lastWrite : Nat
  nConns : Int
  nOps : Int
  respTime : Int

/-- Model of `RWSplit::gtid`: a (domain, sequence) replication position. -/
structure Gtid where
  domain : Nat
  sequence : Nat

/-- Model of `causal_reads` configuration modes relevant to backend selection. -/
inductive CausalReads
  | NONE | LOCAL_ | GLOBAL_ | FAST | UNIVERSAL | FAST_GLOBAL | FAST_UNIVERSAL
  deriving DecidableEq

/-- Model of `select_criteria_t`: the configured slave selection criterion. -/
inductive SelectCriteria
  | LEAST_GLOBAL_CONNECTIONS | LEAST_ROUTER_CONNECTIONS
  | LEAST_BEHIND_MASTER | LEAST_CURRENT_OPERATIONS | ADAPTIVE_ROUTING
  deriving DecidableEq

/-- The session-level inputs consulted by `RWSplitSession::get_slave_backend`.
`currentMaster` identifies `m_current_master` by backend name;
`canRecover` is `can_recover_servers()`, `needSlaves` is `need_slaves()`,
`currentRank` is `get_current_rank()` (all computed elsewhere in the
session and read by the selection loop). -/
structure RWSession where
  causal_reads : CausalReads
  master_accept_reads : Bool
  criteria : SelectCriteria
  gtid_pos : Gtid
  last_gtid_map : List Gtid
  currentMaster : Option Nat
  canRecover : Bool
  needSlaves : Bool
  currentRank : Int
  maxRlag : Int

/-- Model of `rpl_lag_is_ok` (rwsplit_select_backends.cc lines 41-52): with a
configured threshold the lag must be defined and strictly below it. -/
def rpl_lag_is_ok (b : RWBackend) (max_rlag : Int) : Bool :=
  if max_rlag ≠ RLAG_UNDEFINED then
    decide (b.rlag ≠ RLAG_UNDEFINED) && decide (b.rlag < max_rlag)
  else
    true

/-- Model of `gtid_pos_is_ok` (rwsplit_select_backends.cc lines 54-57). -/
def gtid_pos_is_ok (b : RWBackend) (g : Gtid) : Bool :=
  g.sequence == 0 || decide (b.gtidPos g.domain ≥ g.sequence)

/-- Model of `RWSplitSession::is_gtid_synced` (rwsplit_select_backends.cc lines
237-259). -/
def is_gtid_synced (s : RWSession) (b : RWBackend) : Bool :=
  if s.causal_reads = CausalReads.FAST ∨ s.causal_reads = CausalReads.FAST_UNIVERSAL then
    gtid_pos_is_ok b s.gtid_pos
  else if s.causal_reads = CausalReads.FAST_GLOBAL then
    s.last_gtid_map.all (fun g => gtid_pos_is_ok b g)
  else
    true

/-- Model of `get_backend_priority` (rwsplit_select_backends.cc lines 172-195). -/
def get_backend_priority (b : RWBackend) (status : Nat) (masters_accepts_reads : Bool) : Int :=
  let acts_slave := status &&& (SERVER_SLAVE ||| (if masters_accepts_reads then SERVER_MASTER else 0)) ≠ 0
  if acts_slave then (if !b.busy then 0 else 1) else 2

/-- Whether `backend == m_current_master` in the selection loop. -/
def is_my_master (s : RWSession) (b : RWBackend) : Bool :=
  s.currentMaster == some b.name

/-- The admission test of the selection loop in
`RWSplitSession::get_slave_backend` (rwsplit_select_backends.cc lines
308-328): the condition of the `if` guarding `candidates.push_back`. -/
def qualifies (s : RWSession) (b : RWBackend) : Bool :=
  let my_master := is_my_master s b
  let already_used := b.inUse
  let can_take_into_use := !already_used && s.canRecover && b.canConnect
  let master_or_slave := b.status &&& (SERVER_MASTER ||| SERVER_SLAVE) ≠ 0
  let in_maint := b.status &&& SERVER_MAINT ≠ 0
  let is_usable := already_used || (can_take_into_use && (s.needSlaves || my_master))
  let rlag_ok := rpl_lag_is_ok b s.maxRlag
  let gtid_is_ok := my_master || is_gtid_synced s b
  let same_rank := b.rank == s.currentRank
  master_or_slave && !in_maint && is_usable && rlag_ok && same_rank && gtid_is_ok

/-- The admission test with the replication-lag conjunct removed; used to
state what the lag gate adds on top of the other conditions. -/
def qualifies_other_conds (s : RWSession) (b : RWBackend) : Bool :=
  let my_master := is_my_master s b
  let already_used := b.inUse
  let can_take_into_use := !already_used && s.canRecover && b.canConnect
  let master_or_slave := b.status &&& (SERVER_MASTER ||| SERVER_SLAVE) ≠ 0
  let in_maint := b.status &&& SERVER_MAINT ≠ 0
  let is_usable := already_used || (can_take_into_use && (s.needSlaves || my_master))
  let gtid_is_ok := my_master || is_gtid_synced s b
  let same_rank := b.rank == s.currentRank
  master_or_slave && !in_maint && is_usable && same_rank && gtid_is_ok

/-- One iteration of the candidate-gathering loop body: admit `b` into the
priority-partitioned candidate list (rwsplit_select_backends.cc lines
328-340). -/
def gather_step (s : RWSession) (acc : List RWBackend × Int) (b : RWBackend) :
    List RWBackend × Int :=
  if qualifies s b then
    let priority := get_backend_priority b b.status s.master_accept_reads
    if priority < acc.2 then ([b], priority)
    else if priority == acc.2 then (acc.1 ++ [b], acc.2)
    else acc
  else acc

/-- The candidate-gathering loop of `RWSplitSession::get_slave_backend`
(rwsplit_select_backends.cc lines 303-347), returning the final
`candidates` list and `best_priority`. -/
def gather_candidates (s : RWSession) (backends : List RWBackend) :
    List RWBackend × Int :=
  backends.foldl (gather_step s) ([], INT_MAX)

/-- The scan of `best_score` (rwsplit_select_backends.cc lines 59-96):
start from the first element, replace the best on a strictly smaller
score, and on a tie prefer the least recently written backend.  The
tracked `min` always equals `score best`, so it is recomputed here. -/
def best_score_fold (score : RWBackend → Int) (best : RWBackend)
    (rest : List RWBackend) : RWBackend :=
  rest.foldl
    (fun best b =>
      if score best > score b then b
      else if score best == score b && b.lastWrite < best.lastWrite then b
      else best)
    best

/-- Model of `best_score` (rwsplit_select_backends.cc lines 59-96). -/
def best_score (sBackends : List RWBackend) (score : RWBackend → Int) :
    Option RWBackend :=
  match sBackends with
  | [] => none
  | b :: rest => some (best_score_fold score b rest)

/-- Model of `backend_cmp_global_conn` (rwsplit_select_backends.cc lines 99-106). -/
def backend_cmp_global_conn (l : List RWBackend) : Option RWBackend :=
  best_score l (fun b => b.nConns)

/-- Model of `backend_cmp_behind_master` (rwsplit_select_backends.cc lines 109-116). -/
def backend_cmp_behind_master (l : List RWBackend) : Option RWBackend :=
  best_score l (fun b => b.rlag)

/-- Model of `backend_cmp_current_load` (rwsplit_select_backends.cc lines 119-126). -/
def backend_cmp_current_load (l : List RWBackend) : Option RWBackend :=
  best_score l (fun b => b.nOps)

/-- The estimate computed by `backend_cmp_response_time`
(rwsplit_select_backends.cc lines 156-161):
`ave + ave * n_current_ops`, with the double-valued response-time
average abstracted to the integer field `respTime`. -/
def response_estimate (b : RWBackend) : Int :=
  b.respTime + b.respTime * b.nOps

/-- Model of `std::min_element` over the estimates: the first element attaining
the minimal estimate. -/
def min_estimate_fold (best : RWBackend) (rest : List RWBackend) : RWBackend :=
  rest.foldl
    (fun best b => if response_estimate b < response_estimate best then b else best)
    best

/-- Model of `backend_cmp_response_time` (rwsplit_select_backends.cc lines 140-169). -/
def backend_cmp_response_time (l : List RWBackend) : Option RWBackend :=
  match l with
  | [] => none
  | b :: rest => some (min_estimate_fold b rest)

/-- Model of `RWSConfig::get_backend_select_function`
(rwsplit_select_backends.cc lines 199-219). -/
def get_backend_select_function (sc : SelectCriteria) :
    List RWBackend → Option RWBackend :=
  match sc with
  | SelectCriteria.LEAST_GLOBAL_CONNECTIONS => backend_cmp_global_conn
  | SelectCriteria.LEAST_ROUTER_CONNECTIONS => backend_cmp_global_conn
  | SelectCriteria.LEAST_BEHIND_MASTER => backend_cmp_behind_master
  | SelectCriteria.LEAST_CURRENT_OPERATIONS => backend_cmp_current_load
  | SelectCriteria.ADAPTIVE_ROUTING => backend_cmp_response_time

/-- Model of `RWSplitSession::get_slave_backend`
(rwsplit_select_backends.cc lines 301-351): gather the candidates, then
let the configured selection function pick the best one. -/
def get_slave_backend (s : RWSession) (backends : List RWBackend) :
    Option RWBackend :=
  get_backend_select_function s.criteria (gather_candidates s backends).1

/-! ### Concrete instances used to exercise the selection pipeline -/

/-- A replica backend with replication lag 2, used as a witness input. -/
def wB1 : RWBackend :=
  { name := 1, inUse := true, canConnect := true, status := SERVER_SLAVE
    rlag := 2, rank := 1, gtidPos := fun _ => 7, busy := false
    lastWrite := 0, nConns := 0, nOps := 0, respTime := 0 }

/-- A session with a configured maximum replication lag of 5. -/
def wS1 : RWSession :=
  { causal_reads := CausalReads.NONE, master_accept_reads := false
    criteria := SelectCriteria.LEAST_CURRENT_OPERATIONS
    gtid_pos := ⟨0, 0⟩, last_gtid_map := [], currentMaster := none
    canRecover := true, needSlaves := true, currentRank := 1, maxRlag := 5 }

/-- A replica backend whose replication lag exactly equals the configured
threshold of 5; identical to `wB1` otherwise. -/
def cexB1 : RWBackend :=
  { name := 1, inUse := true, canConnect := true, status := SERVER_SLAVE
    rlag := 5, rank := 1, gtidPos := fun _ => 7, busy := false
    lastWrite := 0, nConns := 0, nOps := 0, respTime := 0 }

/-- A session in causal-reads FAST mode requiring gtid sequence 3 in
domain 1. -/
def wS8 : RWSession :=
  { causal_reads := CausalReads.FAST, master_accept_reads := false
    criteria := SelectCriteria.LEAST_CURRENT_OPERATIONS
    gtid_pos := ⟨1, 3⟩, last_gtid_map := [], currentMaster := none
    canRecover := true, needSlaves := true, currentRank := 1, maxRlag := RLAG_UNDEFINED }

/-! ## Server endpoint connection state (server/core/server.cc,
server/core/internal/server.hh)

`ServerEndpoint` owns a per-session link to one server.  The fields of
the model mirror `m_connstatus` and `m_delayed_packets`; packets are
identified by numbers.  The worker call
`get_backend_connection` is abstracted by its three possible outcomes. -/

/-- Model of `ServerEndpoint::ConnStatus` (server/core/internal/server.hh lines
543-551). -/
inductive ConnStatus
  | NO_CONN | CONNECTED | CONNECTED_FAILED | IDLE_POOLED | WAITING_FOR_CONN
  deriving DecidableEq

/-- Outcome of `m_session->worker()->get_backend_connection(...)`:
a connection, the connection-count limit, or failure. -/
inductive ConnectRes
  | gotConn | limitReached | failure
  deriving DecidableEq

structure EndpointState where
  connstatus : ConnStatus
  delayed : List Nat
  deriving DecidableEq

/-- What `ServerEndpoint::routeQuery` did with the packet. -/
inductive RouteAction
  | forwarded     -- passed to `m_conn->routeQuery`
  | buffered      -- appended to `m_delayed_packets`
  | rejected      -- neither: returns 0
  deriving DecidableEq

/-- Model of `ServerEndpoint::connect` (server/core/server.cc lines 1190-1229).
The returned Bool is false when the C++ function throws (the
connection-limit-without-pooling and failure branches). -/
def endpoint_connect (idlePooling : Bool) (res : ConnectRes) (s : EndpointState) :
    EndpointState × Bool :=
  match res with
  | ConnectRes.gotConn => ({ s with connstatus := ConnStatus.CONNECTED }, true)
  | ConnectRes.limitReached =>
      if idlePooling then ({ s with connstatus := ConnStatus.WAITING_FOR_CONN }, true)
      else (s, false)
  | ConnectRes.failure => ({ s with connstatus := ConnStatus.NO_CONN }, false)

/-- Model of `ServerEndpoint::routeQuery` (server/core/server.cc lines 1291-1367):
the dispatch on `m_connstatus`.  Returns the new endpoint state, what
happened to the packet, and the C++ return value as a Bool
(`rval != 0`).  The query-time accounting and the operation
classification do not affect the packet's fate and are omitted. -/
def endpoint_routeQuery (idlePooling : Bool) (res : ConnectRes) (pkt : Nat)
    (s : EndpointState) : EndpointState × RouteAction × Bool :=
  match s.connstatus with
  | ConnStatus.NO_CONN => (s, RouteAction.rejected, false)
  | ConnStatus.CONNECTED_FAILED => (s, RouteAction.rejected, false)
  | ConnStatus.CONNECTED => (s, RouteAction.forwarded, true)
  | ConnStatus.IDLE_POOLED =>
      let (s2, ok) := endpoint_connect idlePooling res s
      if ok then
        if s2.connstatus = ConnStatus.CONNECTED then
          (s2, RouteAction.forwarded, true)
        else
          ({ s2 with delayed := s2.delayed ++ [pkt] }, RouteAction.buffered, true)
      else (s2, RouteAction.rejected, false)
  | ConnStatus.WAITING_FOR_CONN =>
      ({ s with delayed := s.delayed ++ [pkt] }, RouteAction.buffered, true)

/-! ## MariaDB client protocol
(server/modules/protocol/MariaDB/mariadb_client.cc) -/

/-! ### Reply accounting (C3) -/

/-- The reply attributes consulted by
`MariaDBClientConnection::clientReply`: `reply.is_complete()`,
`reply.is_ok()` and `reply.error().is_unexpected_error()`. -/
structure ReplyInfo where
  isComplete : Bool
  isOk : Bool
  unexpectedError : Bool
  deriving DecidableEq

/-- The update of `m_num_responses` performed by
`MariaDBClientConnection::clientReply` (mariadb_client.cc lines
2987-3001): no change for a COM_BINLOG_DUMP command; otherwise decrement
exactly when the reply is complete and not an unexpected error.  The
buffer is forwarded to the client (`write`) in every case. -/
def clientReply_num_responses (n : Int) (cmd_is_binlog_dump : Bool) (r : ReplyInfo) : Int :=
  if cmd_is_binlog_dump then n
  else if r.isComplete && !r.unexpectedError then n - 1 else n

/-! ### Handshake-response sequence check (C4) -/

def MYSQL_HEADER_LEN : Nat := 4
def MYSQL_PACKET_LENGTH_MAX : Nat := 2 ^ 24 - 1
/-- Model of `MYSQL_AUTH_PACKET_BASE_SIZE + 2` (mariadb_client.cc line 70): the
minimum size of a full HandshakeResponse protocol packet, 38 bytes. -/
def NORMAL_HS_RESP_MIN_SIZE : Nat := 38
def NORMAL_HS_RESP_MAX_SIZE : Nat := MYSQL_PACKET_LENGTH_MAX - 1

/-- A MariaDB error packet as produced by `send_mysql_err_packet`:
error number, SQLSTATE and message. -/
structure ErrPacket where
  errno : Nat
  sqlstate : String
  message : String
  deriving DecidableEq

/-- Result of one `read_handshake_response` call. -/
inductive HsRespRes
  | done | inProgress | failed
  deriving DecidableEq

/-- Model of `MariaDBClientConnection::read_handshake_response`
(mariadb_client.cc lines 2061-2127), given a parsed packet header
(3-byte payload length and sequence byte), the number of readable bytes
and the expected sequence.  Returns the state-machine result and the
error packet sent, if any. -/
def read_handshake_response (pl_length seq buffer_len expected_seq : Nat) :
    HsRespRes × Option ErrPacket :=
  let prot_packet_len := MYSQL_HEADER_LEN + pl_length
  if NORMAL_HS_RESP_MIN_SIZE ≤ prot_packet_len ∧ prot_packet_len ≤ NORMAL_HS_RESP_MAX_SIZE then
    if seq = expected_seq then
      if prot_packet_len ≤ buffer_len then (HsRespRes.done, none)
      else (HsRespRes.inProgress, none)
    else (HsRespRes.failed, some ⟨1156, "08S01", "Got packets out of order"⟩)
  else (HsRespRes.failed, some ⟨1043, "08S01", "Bad handshake"⟩)

/-- Result of `process_handshake`, `StateMachineRes`. -/
inductive SMRes
  | done | inProgress | error
  deriving DecidableEq

/-- The `EXPECT_HS_RESP` arm of `process_handshake` together with the
`FAIL`/`COMPLETE` exits (mariadb_client.cc lines 2383-2423): a failed
read reaches `HSState::FAIL` and the function returns
`StateMachineRes::ERROR`. -/
def process_hs_resp (r : HsRespRes) (parse_ok : Bool) : SMRes :=
  match r with
  | HsRespRes.done => if parse_ok then SMRes.done else SMRes.error
  | HsRespRes.inProgress => SMRes.inProgress
  | HsRespRes.failed => SMRes.error

/-- The `HANDSHAKING` arm of the top-level reading loop
(mariadb_client.cc lines 1600-1684): a `StateMachineRes::ERROR` moves
the connection to `State::FAILED`, after which `m_session->kill()` is
invoked. -/
def handshaking_kills_session (r : SMRes) : Bool :=
  match r with
  | SMRes.error => true
  | _ => false

/-! ### COM_CHANGE_USER commit/cancel (C5) -/

/-- The authentication fields relevant to the change-user flow:
`AuthenticationData::user`, `::default_db`, and the chosen user entry's
`default_role`. -/
structure AuthData where
  user : String
  default_db : String
  default_role : String
  deriving DecidableEq

/-- The session fields read and written by the change-user flow:
`m_session_data->current_db`, `->role`, `->auth_data`. -/
structure ClientSessionData where
  current_db : String
  role : String
  auth_data : AuthData
  deriving DecidableEq

/-- Model of `m_change_user`: the staged authentication data and the backup of the
pre-command data (`auth_data` / `auth_data_bu`). -/
structure ChangeUser where
  staged : Option AuthData
  backup : Option AuthData
  deriving DecidableEq

/-- Model of `MariaDBClientConnection::complete_change_user_p1`
(mariadb_client.cc lines 2210-2232): back up the session authentication
data and install the staged change-user data `nd`. -/
def complete_change_user_p1 (sess : ClientSessionData) (nd : AuthData) :
    ClientSessionData × ChangeUser :=
  ({ sess with auth_data := nd }, { staged := none, backup := some sess.auth_data })

/-- Model of `MariaDBClientConnection::complete_change_user_p2`
(mariadb_client.cc lines 2243-2262): commit the new default database and
default role into the session and drop the backup. -/
def complete_change_user_p2 (sess : ClientSessionData) (cu : ChangeUser) :
    ClientSessionData × ChangeUser :=
  ({ sess with
      current_db := sess.auth_data.default_db
      role := sess.auth_data.default_role },
   { cu with backup := none })

/-- Model of `MariaDBClientConnection::cancel_change_user_p2`
(mariadb_client.cc lines 2264-2276): restore the original authentication
data from the backup. -/
def cancel_change_user_p2 (sess : ClientSessionData) (cu : ChangeUser) :
    ClientSessionData × ChangeUser :=
  match cu.backup with
  | some orig => ({ sess with auth_data := orig }, { cu with backup := none })
  | none => (sess, cu)

/-- The `ChangingState::USER` arm of
`MariaDBClientConnection::clientReply` (mariadb_client.cc lines
2929-2942): commit on an OK reply, cancel on anything else. -/
def change_user_reply (reply_is_ok : Bool) (sess : ClientSessionData) (cu : ChangeUser) :
    ClientSessionData × ChangeUser :=
  if reply_is_ok then complete_change_user_p2 sess cu
  else cancel_change_user_p2 sess cu

/-! ### Session-command history recording (C6, C7) -/

def MXS_COM_QUIT : Nat := 0x01
def MXS_COM_PING : Nat := 0x0e
def MXS_COM_CHANGE_USER : Nat := 0x11
def MXS_COM_STMT_PREPARE : Nat := 0x16
def MXS_COM_STMT_EXECUTE : Nat := 0x17
def MXS_COM_STMT_CLOSE : Nat := 0x19
def MXS_COM_STMT_RESET : Nat := 0x1a

/-- Model of `MAX_SESCMD_ID` (mariadb_client.cc line 87):
`std::numeric_limits<uint32_t>::max() = 2^32 - 1`, the past-the-end
value of the session-command id counter. -/
def MAX_SESCMD_ID : Nat := 4294967295

/-- A session-command history element: the assigned id and the command
byte of the recorded packet (payload abstracted away). -/
structure HistoryEntry where
  id : Nat
  cmd : Nat
  deriving DecidableEq

/-- Modelled from the spec: `m_session_data->history().erase(id)`.  The
history class is declared outside these sources; the spec describes the
history as an ordered list of (id, packet, expected_ok) entries and says
a COM_STMT_CLOSE removes the COM_STMT_PREPARE with the same id.  `erase`
removes the entry carrying the id and reports whether one was removed. -/
def history_erase (h : List HistoryEntry) (i : Nat) : List HistoryEntry × Bool :=
  (h.filter (fun e => e.id != i), h.any (fun e => e.id == i))

/-- Model of `std::map::operator[]` followed by `assign`: set key `k` to `v`. -/
def metadata_set (m : List (Nat × List Nat)) (k : Nat) (v : List Nat) :
    List (Nat × List Nat) :=
  if m.any (fun p => p.1 == k) then
    m.map (fun p => if p.1 == k then (k, v) else p)
  else m ++ [(k, v)]

/-- The protocol-session state touched by `record_for_history`:
the history list, `m_session_data->exec_metadata`, the id counter
`m_next_id` and the pending command copy `m_pending_cmd`. -/
structure ProtoState where
  history : List HistoryEntry
  exec_metadata : List (Nat × List Nat)
  next_id : Nat
  pending_cmd : Option HistoryEntry
  deriving DecidableEq

/-- The wrap-around id counter update shared by `record_for_history` and
`route_statement` (mariadb_client.cc lines 1348-1351 and 1381-1384):
`if (++m_next_id == MAX_SESCMD_ID) { m_next_id = 1; }`. -/
def next_id_step (id : Nat) : Nat :=
  if id + 1 = MAX_SESCMD_ID then 1 else id + 1

/-- Model of `MariaDBClientConnection::record_for_history` (mariadb_client.cc
lines 1271-1357).  Inputs extracted from the buffer: the command byte,
the prepared-statement id (`mxs_mysql_extract_ps_id`), whether the
route-info target is all backends, and for COM_STMT_EXECUTE the
parameter-type block when the new-parameters flag is set.  Returns the
updated state and `should_record`. -/
def record_for_history (st : ProtoState) (cmd ps_id : Nat)
    (target_is_all : Bool) (exec_types : Option (List Nat)) : ProtoState × Bool :=
  let step :=
    if cmd = MXS_COM_QUIT ∨ cmd = MXS_COM_PING ∨ cmd = MXS_COM_STMT_RESET then
      (st, false)
    else if cmd = MXS_COM_STMT_EXECUTE then
      (match exec_types with
       | some bytes => { st with exec_metadata := metadata_set st.exec_metadata ps_id bytes }
       | none => st,
       false)
    else if cmd = MXS_COM_STMT_CLOSE then
      let er := history_erase st.history ps_id
      (if er.2 then
        { st with history := er.1
                  exec_metadata := st.exec_metadata.filter (fun p => p.1 != ps_id) }
       else { st with history := er.1 },
       false)
    else if cmd = MXS_COM_CHANGE_USER then
      ({ st with history := [], exec_metadata := [] }, false)
    else if cmd = MXS_COM_STMT_PREPARE then (st, true)
    else (st, target_is_all)
  if step.2 then
    ({ step.1 with
        pending_cmd := some ⟨step.1.next_id, cmd⟩
        next_id := next_id_step step.1.next_id },
     true)
  else (step.1, false)

/-- Model of `MariaDBClientConnection::finish_recording_history`
(mariadb_client.cc lines 1441-1470): on a complete reply, append the
pending command to the history. -/
def finish_recording_history (st : ProtoState) (reply_complete : Bool) : ProtoState :=
  if reply_complete then
    match st.pending_cmd with
    | some e => { st with history := st.history ++ [e], pending_cmd := none }
    | none => st
  else st

/-- The id assigned to the n-th recorded session command, starting from
the counter's initial value and advancing by `next_id_step` per
assignment.  Modelled from the spec: the initial value of `m_next_id` is
set in the protocol class header, which is outside these sources; the
spec states ids come from a counter starting at 1. -/
def assigned_session_cmd_id : Nat → Nat
  | 0 => 1
  | n + 1 => next_id_step (assigned_session_cmd_id n)

/-! ## User cache lookup (server/modules/protocol/MariaDB/user_data.cc) -/

/-- Model of `mariadb::UserEntryType`: the outcome of a user-account search. -/
inductive UserEntryType
  | USER_NOT_FOUND | USER_ACCOUNT_OK | BAD_DB | DB_ACCESS_DENIED
  | ROOT_ACCESS_DENIED | ANON_PROXY_ACCESS_DENIED | NEED_NAMEINFO
  | PLUGIN_IS_NOT_LOADED
  deriving DecidableEq

/-- Model of `UserDatabase::DBNameCmpMode`: how database names are compared. -/
inductive DBNameCmpMode
  | CASE_SENSITIVE | LOWER_CASE | CASE_INSENSITIVE
  deriving DecidableEq

/-- The fields of `mariadb::UserEntry` that `find_user` itself reads. -/
structure UserEntry where
  username : String
  host_pattern : String
  proxy_priv : Bool
  deriving DecidableEq

/-- ASCII lower-casing of one character, as `tolower` does for the
byte range the database names use. -/
def charToLower (c : Char) : Char :=
  if 'A' ≤ c ∧ c ≤ 'Z' then Char.ofNat (c.toNat + 32) else c

/-- Model of `mxb::tolower` on a string: lower-case every character. -/
def strLower (s : String) : String := String.mk (s.data.map charToLower)

/-- Model of `strcasecmp(a, b) == 0`: ASCII case-insensitive equality. -/
def strcaseeq (a b : String) : Bool := strLower a == strLower b

/-- Model of `UserDatabase::check_database_exists` (user_data.cc lines
1855-1875): exact containment, or case-folded containment when the
comparison mode is case-insensitive. -/
def check_database_exists (db_names : List String) (db : String)
    (case_sensitive_db : Bool) : Bool :=
  db_names.contains db
    || (!case_sensitive_db && db_names.any (fun e => strcaseeq e db))

/-- The constant `info_schema` compared against in `find_user`. -/
def info_schema : String := "information_schema"

/-- The listener/service settings `find_user` consults
(`UserSearchSettings`). -/
structure UserSearchSettings where
  db_name_cmp_mode : DBNameCmpMode
  allow_anon_user : Bool
  allow_root_user : Bool
  deriving DecidableEq

/-- The effective requested database and comparison sensitivity derived
from the listener's case mode (user_data.cc lines 1891-1908). -/
def eff_db_and_case (requested_db : String) (mode : DBNameCmpMode) : String × Bool :=
  match mode with
  | DBNameCmpMode.CASE_SENSITIVE => (requested_db, true)
  | DBNameCmpMode.LOWER_CASE => (strLower requested_db, false)
  | DBNameCmpMode.CASE_INSENSITIVE => (requested_db, false)

/-- The `information_schema` exemption test of `find_user`
(user_data.cc lines 1937-1939), applied to the effective database. -/
def is_info_schema_req (requested_db : String) (mode : DBNameCmpMode) : Bool :=
  (eff_db_and_case requested_db mode).1 == info_schema
    || (!(eff_db_and_case requested_db mode).2
        && strcaseeq (eff_db_and_case requested_db mode).1 info_schema)

/-- The value of the local `res` in `MariaDBUserCache::find_user`
(user_data.cc lines 1913-1995) before the root-user check.  The entry
searches (`UserDatabase::find_entry`) and the grant check
(`UserDatabase::check_database_access`) are abstracted as parameters:
`found` / `anon_found` are the results of the normal and anonymous
entry searches, and `check_db_access e db cs` is the grant check's
verdict.  The info-schema test of lines 1937-1939 is the shared
`is_info_schema_req`. -/
def find_user_res (found anon_found : Option UserEntry) (db_names : List String)
    (check_db_access : UserEntry → String → Bool → Bool)
    (requested_db : String) (sett : UserSearchSettings) : UserEntryType :=
  match found with
  | some e =>
      if (eff_db_and_case requested_db sett.db_name_cmp_mode).1 ≠ "" then
        if !check_database_exists db_names
            (eff_db_and_case requested_db sett.db_name_cmp_mode).1
            (eff_db_and_case requested_db sett.db_name_cmp_mode).2 then
          UserEntryType.BAD_DB
        else if is_info_schema_req requested_db sett.db_name_cmp_mode then
          UserEntryType.USER_ACCOUNT_OK
        else if !check_db_access e
            (eff_db_and_case requested_db sett.db_name_cmp_mode).1
            (eff_db_and_case requested_db sett.db_name_cmp_mode).2 then
          UserEntryType.DB_ACCESS_DENIED
        else UserEntryType.USER_ACCOUNT_OK
      else UserEntryType.USER_ACCOUNT_OK
  | none =>
      if sett.allow_anon_user then
        match anon_found with
        | some a =>
            if (eff_db_and_case requested_db sett.db_name_cmp_mode).1 ≠ ""
                && !check_database_exists db_names
                  (eff_db_and_case requested_db sett.db_name_cmp_mode).1
                  (eff_db_and_case requested_db sett.db_name_cmp_mode).2 then
              UserEntryType.BAD_DB
            else if !a.proxy_priv then
              UserEntryType.ANON_PROXY_ACCESS_DENIED
            else UserEntryType.USER_ACCOUNT_OK
        | none => UserEntryType.USER_NOT_FOUND
      else UserEntryType.USER_NOT_FOUND

/-- Model of `MariaDBUserCache::find_user` (user_data.cc lines 1883-2012): the
search result followed by the root-user check of lines 1997-2003.  The
dummy-entry generation for USER_NOT_FOUND does not change the result
type and is omitted. -/
def find_user (found anon_found : Option UserEntry) (db_names : List String)
    (check_db_access : UserEntry → String → Bool → Bool)
    (user requested_db : String) (sett : UserSearchSettings) : UserEntryType :=
  if find_user_res found anon_found db_names check_db_access requested_db sett
        = UserEntryType.USER_ACCOUNT_OK
      ∧ !sett.allow_root_user ∧ user = "root" then
    UserEntryType.ROOT_ACCESS_DENIED
  else find_user_res found anon_found db_names check_db_access requested_db sett

/-! ## KILL command target resolution
(server/modules/protocol/MariaDB/mariadb_client.cc lines 330-454 and
1759-1844, 3043-3080) -/

/-- The client protocol module's name.  The macro is defined in a header
outside these sources; only its (in)equality with a session's protocol
name matters here. -/
def MXS_MARIADB_PROTOCOL_NAME : String := "mariadbprotocol"

/-- The per-backend-connection data `generate_target_list` reads:
the backend thread id (0 when the connection is not yet established)
and the server, identified by a number. -/
structure BackendConnInfo where
  thread_id : Nat
  server : Nat
  deriving DecidableEq

/-- One registered session as seen by the worker's session registry. -/
structure SessionInfo where
  sid : Nat
  protocol_name : String
  backends : List BackendConnInfo
  deriving DecidableEq

/-- The outputs of `ConnKillInfo::generate_target_list`: the target
server set, the per-server backend thread ids, and the servers of the
not-yet-established connections that get a hangup (the only mutation of
the target session). -/
structure KillTargets where
  targets : List Nat
  be_thread_ids : List (Nat × Nat)
  hangups : List Nat
  deriving DecidableEq

/-- Model of `std::set::insert` on the server set. -/
def set_insert (l : List Nat) (x : Nat) : List Nat :=
  if l.contains x then l else l ++ [x]

/-- Model of `be_thread_ids[srv] = backend_thread_id`. -/
def thread_id_map_set (m : List (Nat × Nat)) (k v : Nat) : List (Nat × Nat) :=
  if m.any (fun p => p.1 == k) then
    m.map (fun p => if p.1 == k then (k, v) else p)
  else m ++ [(k, v)]

/-- The body of `ConnKillInfo::generate_target_list` applied to the
result of the session-registry lookup (mariadb_client.cc lines
382-421): only when the found session's protocol is the MariaDB
protocol, record each established backend connection's server and
thread id as a KILL target and hang up the incomplete ones.  Otherwise
nothing is touched. -/
def conn_kill_process : Option SessionInfo → KillTargets
  | none => ⟨[], [], []⟩
  | some s =>
      if s.protocol_name = MXS_MARIADB_PROTOCOL_NAME then
        s.backends.foldl
          (fun acc c =>
            if c.thread_id ≠ 0 then
              { acc with
                  targets := set_insert acc.targets c.server
                  be_thread_ids := thread_id_map_set acc.be_thread_ids c.server c.thread_id }
            else { acc with hangups := acc.hangups ++ [c.server] })
          ⟨[], [], []⟩
      else ⟨[], [], []⟩

/-- Model of `ConnKillInfo::generate_target_list` (mariadb_client.cc lines
379-423): look the target session id up in the worker's session
registry and process the result. -/
def conn_kill_generate_target_list (registry : List SessionInfo)
    (target_ses_id : Nat) : KillTargets :=
  conn_kill_process (registry.find? (fun t => t.sid == target_ses_id))

/-- The auxiliary KILL queries issued by `execute_kill`'s
`kill_connections` step (mariadb_client.cc lines 1774-1833): one
short-lived client and one query per server in the target set. -/
def conn_kill_queries (kt : KillTargets) : List Nat :=
  kt.targets

/-- Model of `maybe_send_kill_response` (mariadb_client.cc lines 3068-3075)
at the end of `kill_connections`: with no auxiliary clients created the
KILL response is sent to the initiator immediately. -/
def kill_response_sent_immediately (kt : KillTargets) : Bool :=
  kt.targets.isEmpty

/-! ### Lemmas about the selection pipeline -/

/-- Every backend in the gathered candidate list passed the admission test. -/
theorem gather_candidates_qualifies (s : RWSession) (backends : List RWBackend) :
    ∀ b ∈ (gather_candidates s backends).1, qualifies s b = true := by
  unfold gather_candidates
  suffices h : ∀ (acc : List RWBackend × Int), (∀ c ∈ acc.1, qualifies s c = true) →
      ∀ b ∈ (backends.foldl (gather_step s) acc).1, qualifies s b = true by
    exact h ([], INT_MAX) (by simp)
  induction backends with
  | nil => intro acc hacc b hb; exact hacc b hb
  | cons x xs ih =>
    intro acc hacc b hb
    refine ih (gather_step s acc x) ?_ b hb
    intro c hc
    unfold gather_step at hc
    by_cases hq : qualifies s x = true
    · rw [if_pos hq] at hc
      by_cases h1 : get_backend_priority x x.status s.master_accept_reads < acc.2
      · rw [if_pos h1] at hc
        simp only [List.mem_singleton] at hc
        subst hc; exact hq
      · rw [if_neg h1] at hc
        by_cases h2 : (get_backend_priority x x.status s.master_accept_reads == acc.2) = true
        · rw [if_pos h2] at hc
          rcases List.mem_append.mp hc with h | h
          · exact hacc c h
          · simp only [List.mem_singleton] at h
            subst h; exact hq
        · rw [if_neg h2] at hc
          exact hacc c hc
    · rw [if_neg hq] at hc
      exact hacc c hc

/-- A left fold whose combining function always returns one of its two
arguments produces either the seed or a member of the list. -/
theorem foldl_choice_mem (f : RWBackend → RWBackend → RWBackend)
    (hf : ∀ a b, f a b = a ∨ f a b = b) (b : RWBackend) (l : List RWBackend) :
    l.foldl f b = b ∨ l.foldl f b ∈ l := by
  induction l generalizing b with
  | nil => left; rfl
  | cons x xs ih =>
    simp only [List.foldl_cons]
    rcases ih (f b x) with h | h
    · rcases hf b x with h2 | h2 <;> rw [h, h2]
      · left; rfl
      · right; exact List.mem_cons_self x xs
    · right; exact List.mem_cons_of_mem x h

/-- The function `best_score` only ever returns a member of its input list. -/
theorem best_score_mem (l : List RWBackend) (score : RWBackend → Int)
    (b : RWBackend) (h : best_score l score = some b) : b ∈ l := by
  cases l with
  | nil => simp [best_score] at h
  | cons x xs =>
    simp only [best_score, Option.some.injEq] at h
    subst h
    unfold best_score_fold
    have hf : ∀ a c : RWBackend,
        (if score a > score c then c
         else if score a == score c && c.lastWrite < a.lastWrite then c else a) = a ∨
        (if score a > score c then c
         else if score a == score c && c.lastWrite < a.lastWrite then c else a) = c := by
      intro a c
      by_cases h1 : score a > score c
      · simp [h1]
      · by_cases h2 : (score a == score c && decide (c.lastWrite < a.lastWrite)) = true <;>
          simp [h1, h2]
    rcases foldl_choice_mem _ hf x xs with h | h
    · rw [h]; exact List.mem_cons_self x xs
    · exact List.mem_cons_of_mem x h

/-- The function `backend_cmp_response_time` only ever returns a member of its input. -/
theorem backend_cmp_response_time_mem (l : List RWBackend) (b : RWBackend)
    (h : backend_cmp_response_time l = some b) : b ∈ l := by
  cases l with
  | nil => simp [backend_cmp_response_time] at h
  | cons x xs =>
    simp only [backend_cmp_response_time, Option.some.injEq] at h
    subst h
    unfold min_estimate_fold
    have hf : ∀ a c : RWBackend,
        (if response_estimate c < response_estimate a then c else a) = a ∨
        (if response_estimate c < response_estimate a then c else a) = c := by
      intro a c
      by_cases h1 : response_estimate c < response_estimate a <;> simp [h1]
    rcases foldl_choice_mem _ hf x xs with h | h
    · rw [h]; exact List.mem_cons_self x xs
    · exact List.mem_cons_of_mem x h

/-- Every configured selection function returns a member of the candidate
list it is given. -/
theorem get_backend_select_function_mem (sc : SelectCriteria)
    (l : List RWBackend) (b : RWBackend)
    (h : get_backend_select_function sc l = some b) : b ∈ l := by
  cases sc
  case ADAPTIVE_ROUTING => exact backend_cmp_response_time_mem l b h
  all_goals exact best_score_mem l _ b h

/-- The backend chosen by `get_slave_backend` passed the admission test. -/
theorem get_slave_backend_qualifies (s : RWSession) (backends : List RWBackend)
    (b : RWBackend) (h : get_slave_backend s backends = some b) :
    qualifies s b = true :=
  gather_candidates_qualifies s backends b
    (get_backend_select_function_mem s.criteria _ b h)

/-- With a configured threshold, passing the replication-lag check means
the lag is defined and strictly below the threshold. -/
theorem rpl_lag_is_ok_iff (b : RWBackend) (m : Int) (hm : m ≠ RLAG_UNDEFINED) :
    rpl_lag_is_ok b m = true ↔ (b.rlag ≠ RLAG_UNDEFINED ∧ b.rlag < m) := by
  simp [rpl_lag_is_ok, hm]

/-- The admission test splits into the lag gate and the remaining
conditions. -/
theorem qualifies_iff (s : RWSession) (b : RWBackend) :
    qualifies s b = true ↔
      (qualifies_other_conds s b = true ∧ rpl_lag_is_ok b s.maxRlag = true) := by
  simp only [qualifies, qualifies_other_conds, Bool.and_eq_true]
  tauto

/-- A backend the admission test accepted satisfied the gtid condition or
was the session's current master. -/
theorem qualifies_gtid (s : RWSession) (b : RWBackend)
    (h : qualifies s b = true) (hm : is_my_master s b = false) :
    is_gtid_synced s b = true := by
  simp only [qualifies, hm, Bool.and_eq_true, Bool.or_eq_true, Bool.false_or] at h
  tauto

/-- A passed gtid check with a positive required sequence bounds the
backend's gtid position from below. -/
theorem gtid_pos_is_ok_ge (b : RWBackend) (g : Gtid)
    (h : gtid_pos_is_ok b g = true) (hseq : 0 < g.sequence) :
    g.sequence ≤ b.gtidPos g.domain := by
  have hne : (g.sequence == 0) = false := by
    simp only [beq_eq_false_iff_ne, ne_eq]
    omega
  simp only [gtid_pos_is_ok, hne, Bool.false_or, decide_eq_true_eq, ge_iff_le] at h
  exact h

/-! ### Claim theorems for the read/write split policy -/

/-- C1: For read-query candidate selection with a configured maximum
replication lag, the claim states a backend is admitted exactly when
(among the other conditions) its lag is ≤ the threshold, equality
included.  The code (`rpl_lag_is_ok`) requires the lag to be defined and
STRICTLY below the threshold, so a backend whose lag equals the
threshold is NOT a candidate: at threshold 5 a replica with lag 5 that
satisfies every other condition yields an empty candidate list and no
selected backend. -/
theorem C1_counterexample :
    cexB1.rlag = wS1.maxRlag
    ∧ qualifies_other_conds wS1 cexB1 = true
    ∧ (gather_candidates wS1 [cexB1]).1 = []
    ∧ get_slave_backend wS1 [cexB1] = none :=
  ⟨rfl, rfl, rfl, rfl⟩

/-- C1 (amended): with a configured threshold, a backend passes the
admission test of `get_slave_backend` exactly when the other conditions
hold and its replication lag is defined and strictly less than the
threshold; in particular every gathered candidate has lag strictly below
the threshold (lag equal to the threshold is excluded). -/
theorem C1_rlag_gate (s : RWSession) (backends : List RWBackend) (b : RWBackend)
    (hm : s.maxRlag ≠ RLAG_UNDEFINED) :
    (qualifies s b = true ↔
      (qualifies_other_conds s b = true ∧ b.rlag ≠ RLAG_UNDEFINED ∧ b.rlag < s.maxRlag))
    ∧ (b ∈ (gather_candidates s backends).1 →
        b.rlag ≠ RLAG_UNDEFINED ∧ b.rlag < s.maxRlag) := by
  constructor
  · rw [qualifies_iff, rpl_lag_is_ok_iff b s.maxRlag hm]
  · intro hb
    have hq := gather_candidates_qualifies s backends b hb
    exact ((rpl_lag_is_ok_iff b s.maxRlag hm).mp ((qualifies_iff s b).mp hq).2)

/-- Witness for C1: a replica with lag 2 under threshold 5 is gathered as
a candidate, and the theorem yields its strict lag bound. -/
theorem C1_rlag_gate_witness : wB1.rlag ≠ RLAG_UNDEFINED ∧ wB1.rlag < wS1.maxRlag :=
  (C1_rlag_gate wS1 [wB1] wB1 (by decide)).2
    (by rw [show (gather_candidates wS1 [wB1]).1 = [wB1] from rfl]
        exact List.mem_singleton.mpr rfl)

/-- C8: Under a causal-reads fast mode, a required watermark with
sequence 0 imposes no gtid condition on any backend; with a positive
sequence, every backend chosen by `get_slave_backend` other than the
session's current master satisfies `gtid_pos(domain) ≥ sequence` for the
required watermark (in FAST/FAST_UNIVERSAL mode the session watermark,
in FAST_GLOBAL mode every watermark of the router's last-gtid map). -/
theorem C8_causal_reads_gtid_gate :
    (∀ (b : RWBackend) (d : Nat), gtid_pos_is_ok b ⟨d, 0⟩ = true)
    ∧ (∀ (s : RWSession) (backends : List RWBackend) (b : RWBackend),
        get_slave_backend s backends = some b →
        is_my_master s b = false →
        (s.causal_reads = CausalReads.FAST ∨ s.causal_reads = CausalReads.FAST_UNIVERSAL) →
        0 < s.gtid_pos.sequence →
        s.gtid_pos.sequence ≤ b.gtidPos s.gtid_pos.domain)
    ∧ (∀ (s : RWSession) (backends : List RWBackend) (b : RWBackend),
        get_slave_backend s backends = some b →
        is_my_master s b = false →
        s.causal_reads = CausalReads.FAST_GLOBAL →
        ∀ g ∈ s.last_gtid_map, 0 < g.sequence → g.sequence ≤ b.gtidPos g.domain) := by
  refine ⟨?_, ?_, ?_⟩
  · intro b d
    simp [gtid_pos_is_ok]
  · intro s backends b hsel hmaster hmode hseq
    have hq := get_slave_backend_qualifies s backends b hsel
    have hsync := qualifies_gtid s b hq hmaster
    unfold is_gtid_synced at hsync
    rw [if_pos hmode] at hsync
    exact gtid_pos_is_ok_ge b s.gtid_pos hsync hseq
  · intro s backends b hsel hmaster hmode g hg hseq
    have hq := get_slave_backend_qualifies s backends b hsel
    have hsync := qualifies_gtid s b hq hmaster
    unfold is_gtid_synced at hsync
    have hnfast : ¬(s.causal_reads = CausalReads.FAST
        ∨ s.causal_reads = CausalReads.FAST_UNIVERSAL) := by
      rw [hmode]; intro hc; rcases hc with hc | hc <;> exact CausalReads.noConfusion hc
    rw [if_neg hnfast, if_pos hmode] at hsync
    rw [List.all_eq_true] at hsync
    exact gtid_pos_is_ok_ge b g (hsync g hg) hseq

/-- Witness for C8: a FAST-mode session requiring sequence 3 in domain 1
selects the replica at gtid position 7, which satisfies the bound. -/
theorem C8_causal_reads_gtid_gate_witness :
    wS8.gtid_pos.sequence ≤ wB1.gtidPos wS8.gtid_pos.domain :=
  C8_causal_reads_gtid_gate.2.1 wS8 [wB1] wB1 rfl rfl (Or.inl rfl) (by decide)

/-! ### Claim theorems for the server endpoint -/

/-- C2: the claim states requests are accepted (forwarded) only in state
CONNECTED and that in every state other than CONNECTED and
WAITING_FOR_CONN no request is accepted.  The code also accepts a
request in IDLE_POOLED: it restores a connection from the pool and
forwards the packet in the same `routeQuery` call. -/
theorem C2_counterexample :
    endpoint_routeQuery true ConnectRes.gotConn 0 ⟨ConnStatus.IDLE_POOLED, []⟩
      = (⟨ConnStatus.CONNECTED, []⟩, RouteAction.forwarded, true)
    ∧ ConnStatus.IDLE_POOLED ≠ ConnStatus.CONNECTED := by
  decide

/-- C2 (amended): a packet is forwarded to the backend connection only
when the endpoint ends the call in state CONNECTED, which it entered
either before the call or by restoring a pooled connection from
IDLE_POOLED during the call; in WAITING_FOR_CONN the packet is buffered
in `m_delayed_packets`; in NO_CONN and CONNECTED_FAILED no request is
accepted and nothing changes. -/
theorem C2_endpoint_routing (idlePooling : Bool) (res : ConnectRes) (pkt : Nat)
    (s : EndpointState) :
    ((endpoint_routeQuery idlePooling res pkt s).2.1 = RouteAction.forwarded →
      (endpoint_routeQuery idlePooling res pkt s).1.connstatus = ConnStatus.CONNECTED
      ∧ (s.connstatus = ConnStatus.CONNECTED ∨ s.connstatus = ConnStatus.IDLE_POOLED))
    ∧ (s.connstatus = ConnStatus.WAITING_FOR_CONN →
        endpoint_routeQuery idlePooling res pkt s
          = ({ s with delayed := s.delayed ++ [pkt] }, RouteAction.buffered, true))
    ∧ ((s.connstatus = ConnStatus.NO_CONN ∨ s.connstatus = ConnStatus.CONNECTED_FAILED) →
        endpoint_routeQuery idlePooling res pkt s = (s, RouteAction.rejected, false)) := by
  obtain ⟨cs, d⟩ := s
  cases cs <;> cases res <;> cases idlePooling <;>
    simp [endpoint_routeQuery, endpoint_connect]

/-- Witness for C2 (amended): routing in WAITING_FOR_CONN buffers the
packet, and routing in NO_CONN rejects it. -/
theorem C2_endpoint_routing_witness :
    endpoint_routeQuery false ConnectRes.gotConn 5 ⟨ConnStatus.WAITING_FOR_CONN, []⟩
      = (⟨ConnStatus.WAITING_FOR_CONN, [5]⟩, RouteAction.buffered, true)
    ∧ endpoint_routeQuery false ConnectRes.gotConn 5 ⟨ConnStatus.NO_CONN, []⟩
      = (⟨ConnStatus.NO_CONN, []⟩, RouteAction.rejected, false) :=
  ⟨(C2_endpoint_routing false ConnectRes.gotConn 5
      ⟨ConnStatus.WAITING_FOR_CONN, []⟩).2.1 rfl,
   (C2_endpoint_routing false ConnectRes.gotConn 5
      ⟨ConnStatus.NO_CONN, []⟩).2.2 (Or.inl rfl)⟩

/-! ### Claim theorems for the client protocol -/

/-- C3: the claim states every reply forwarded to the client strictly
decreases `m_num_responses`.  The code forwards every buffer it is
handed but decrements only for complete replies: an incomplete reply is
forwarded with the counter unchanged. -/
theorem C3_counterexample :
    clientReply_num_responses 2 false ⟨false, false, false⟩ = 2 := by
  decide

/-- C3 (amended): `clientReply` forwards every reply, and decrements
`m_num_responses` by exactly one precisely when the command is not a
COM_BINLOG_DUMP and the reply is complete and not an unexpected error;
with at least one response outstanding the counter never becomes
negative and never increases. -/
theorem C3_num_responses (n : Int) (bd : Bool) (r : ReplyInfo) (hn : 1 ≤ n) :
    (clientReply_num_responses n bd r = n - 1 ↔
      (bd = false ∧ r.isComplete = true ∧ r.unexpectedError = false))
    ∧ 0 ≤ clientReply_num_responses n bd r
    ∧ clientReply_num_responses n bd r ≤ n := by
  unfold clientReply_num_responses
  cases bd <;> cases hc : r.isComplete <;> cases hu : r.unexpectedError <;>
    simp [hc, hu] <;> omega

/-- Witness for C3: one outstanding response and a complete OK reply
leave the counter at zero. -/
theorem C3_num_responses_witness :
    clientReply_num_responses 1 false ⟨true, true, false⟩ = 0 ∧
    0 ≤ clientReply_num_responses 1 false ⟨true, true, false⟩ := by
  have h := C3_num_responses 1 false ⟨true, true, false⟩ (by norm_num)
  exact ⟨by simpa using h.1.mpr ⟨rfl, rfl, rfl⟩, h.2.1⟩

/-- C4: a client whose HandshakeResponse (a protocol packet within the
legal HandshakeResponse size bounds) carries a sequence number other
than the expected one is sent an error packet with code 1156, SQLSTATE
08S01 and message "Got packets out of order", and the handshake state
machine fails, which moves the connection to `State::FAILED` and kills
the session. -/
theorem C4_out_of_order (pl seq blen expected : Nat) (parse_ok : Bool)
    (hmin : NORMAL_HS_RESP_MIN_SIZE ≤ MYSQL_HEADER_LEN + pl)
    (hmax : MYSQL_HEADER_LEN + pl ≤ NORMAL_HS_RESP_MAX_SIZE)
    (hseq : seq ≠ expected) :
    (read_handshake_response pl seq blen expected).2
        = some ⟨1156, "08S01", "Got packets out of order"⟩
    ∧ (read_handshake_response pl seq blen expected).1 = HsRespRes.failed
    ∧ handshaking_kills_session
        (process_hs_resp (read_handshake_response pl seq blen expected).1 parse_ok)
        = true := by
  unfold read_handshake_response
  rw [if_pos ⟨hmin, hmax⟩, if_neg hseq]
  exact ⟨rfl, rfl, rfl⟩

/-- Witness for C4: a 100-byte HandshakeResponse with seq 2 where 1 was
expected draws the out-of-order error and the session is killed. -/
theorem C4_out_of_order_witness :
    (read_handshake_response 96 2 100 1).2
        = some ⟨1156, "08S01", "Got packets out of order"⟩
    ∧ handshaking_kills_session
        (process_hs_resp (read_handshake_response 96 2 100 1).1 true) = true := by
  have h := C4_out_of_order 96 2 100 1 true
    (by norm_num [NORMAL_HS_RESP_MIN_SIZE, MYSQL_HEADER_LEN])
    (by norm_num [NORMAL_HS_RESP_MAX_SIZE, MYSQL_PACKET_LENGTH_MAX, MYSQL_HEADER_LEN])
    (by norm_num)
  exact ⟨h.1, h.2.2⟩

/-- C5: after a COM_CHANGE_USER whose backend reply is OK, the session's
`current_db` and `role` hold the new entry's default database and
default role; after an ERR reply both fields (and the authentication
data) hold their pre-command values. -/
theorem C5_change_user_commit_or_revert (sess : ClientSessionData) (nd : AuthData) :
    ((change_user_reply true (complete_change_user_p1 sess nd).1
        (complete_change_user_p1 sess nd).2).1.current_db = nd.default_db
      ∧ (change_user_reply true (complete_change_user_p1 sess nd).1
          (complete_change_user_p1 sess nd).2).1.role = nd.default_role)
    ∧ ((change_user_reply false (complete_change_user_p1 sess nd).1
          (complete_change_user_p1 sess nd).2).1.current_db = sess.current_db
      ∧ (change_user_reply false (complete_change_user_p1 sess nd).1
          (complete_change_user_p1 sess nd).2).1.role = sess.role
      ∧ (change_user_reply false (complete_change_user_p1 sess nd).1
          (complete_change_user_p1 sess nd).2).1.auth_data = sess.auth_data) :=
  ⟨⟨rfl, rfl⟩, ⟨rfl, rfl, rfl⟩⟩

/-- C6: when the history holds an entry with id `i`, a COM_STMT_CLOSE
for id `i` removes exactly that entry from the history, drops the saved
execution metadata for id `i`, and is itself not recorded (no pending
command is staged and `should_record` is false), so a later replay of
the history does not include it. -/
theorem C6_stmt_close_removes (st : ProtoState) (i : Nat) (tia : Bool)
    (et : Option (List Nat))
    (hmem : st.history.any (fun e => e.id == i) = true) :
    (record_for_history st MXS_COM_STMT_CLOSE i tia et).2 = false
    ∧ (record_for_history st MXS_COM_STMT_CLOSE i tia et).1.history
        = st.history.filter (fun e => e.id != i)
    ∧ (∀ e ∈ (record_for_history st MXS_COM_STMT_CLOSE i tia et).1.history, e.id ≠ i)
    ∧ (∀ p ∈ (record_for_history st MXS_COM_STMT_CLOSE i tia et).1.exec_metadata, p.1 ≠ i)
    ∧ (record_for_history st MXS_COM_STMT_CLOSE i tia et).1.pending_cmd
        = st.pending_cmd := by
  have h1 : record_for_history st MXS_COM_STMT_CLOSE i tia et
      = ({ st with history := st.history.filter (fun e => e.id != i)
                   exec_metadata := st.exec_metadata.filter (fun p => p.1 != i) },
         false) := by
    unfold record_for_history history_erase
    norm_num [MXS_COM_STMT_CLOSE, MXS_COM_QUIT, MXS_COM_PING, MXS_COM_STMT_RESET,
              MXS_COM_STMT_EXECUTE, MXS_COM_CHANGE_USER, MXS_COM_STMT_PREPARE, hmem]
  rw [h1]
  refine ⟨rfl, rfl, ?_, ?_, rfl⟩
  · intro e he
    have := (List.mem_filter.mp he).2
    simpa using this
  · intro p hp
    have := (List.mem_filter.mp hp).2
    simpa using this

/-- Witness for C6: a history holding the prepare with id 1 and its
metadata; the close removes both and records nothing. -/
theorem C6_stmt_close_removes_witness :
    (record_for_history ⟨[⟨1, MXS_COM_STMT_PREPARE⟩], [(1, [5, 6])], 2, none⟩
        MXS_COM_STMT_CLOSE 1 false none).2 = false
    ∧ ∀ e ∈ (record_for_history ⟨[⟨1, MXS_COM_STMT_PREPARE⟩], [(1, [5, 6])], 2, none⟩
        MXS_COM_STMT_CLOSE 1 false none).1.history, e.id ≠ 1 := by
  have h := C6_stmt_close_removes ⟨[⟨1, MXS_COM_STMT_PREPARE⟩], [(1, [5, 6])], 2, none⟩
    1 false none (by decide)
  exact ⟨h.1, h.2.2.1⟩

/-- C7: session-command ids come from a counter that starts at 1,
advances by one per assignment per `next_id_step`, and wraps back to 1
when it would reach `MAX_SESCMD_ID = 2^32 - 1`; consequently no assigned
id is ever 0 and none is ever `2^32 - 1`. -/
theorem C7_sescmd_id_range :
    assigned_session_cmd_id 0 = 1
    ∧ (∀ n, assigned_session_cmd_id (n + 1)
        = if assigned_session_cmd_id n + 1 = MAX_SESCMD_ID then 1
          else assigned_session_cmd_id n + 1)
    ∧ ∀ n, assigned_session_cmd_id n ≠ 0 ∧ assigned_session_cmd_id n ≠ MAX_SESCMD_ID := by
  have key : ∀ n, 1 ≤ assigned_session_cmd_id n
      ∧ assigned_session_cmd_id n < MAX_SESCMD_ID := by
    intro n
    induction n with
    | zero =>
      exact ⟨le_refl 1, by norm_num [assigned_session_cmd_id, MAX_SESCMD_ID]⟩
    | succ n ih =>
      unfold assigned_session_cmd_id next_id_step
      split_ifs with h
      · exact ⟨le_refl 1, by norm_num [MAX_SESCMD_ID]⟩
      · unfold MAX_SESCMD_ID at *
        omega
  refine ⟨rfl, fun n => rfl, fun n => ?_⟩
  have := key n
  unfold MAX_SESCMD_ID at *
  omega

/-! ### Claim theorems for the user cache lookup -/

/-- A request for `information_schema` (under any case mode) has a
non-empty effective database name. -/
theorem is_info_schema_req_ne_empty (req : String) (mode : DBNameCmpMode)
    (h : is_info_schema_req req mode = true) :
    (eff_db_and_case req mode).1 ≠ "" := by
  intro hemp
  unfold is_info_schema_req at h
  rw [hemp] at h
  simp [show ("" == info_schema) = false by decide,
        show strcaseeq "" info_schema = false by decide] at h

/-- C9: the claim states a lookup whose requested database is
`information_schema` imposes no database-existence requirement and never
yields BAD_DB.  The code checks existence BEFORE the info-schema
exemption: with a matching user entry and a database-name set not
containing `information_schema`, the lookup returns BAD_DB. -/
theorem C9_counterexample :
    find_user (some ⟨"alice", "%", false⟩) none [] (fun _ _ _ => true)
      "alice" "information_schema"
      ⟨DBNameCmpMode.CASE_SENSITIVE, false, true⟩
      = UserEntryType.BAD_DB := by
  decide

/-- C9 (amended): when the requested database is `information_schema`
under the listener's case mode, the lookup imposes no grant requirement
— the result is never DB_ACCESS_DENIED for any entry and any grant
data — but the database-existence requirement still applies: with a
matching user entry, if `information_schema` is absent from the
database-name set the result is BAD_DB. -/
theorem C9_info_schema_no_grant_check (found anon_found : Option UserEntry)
    (db_names : List String) (check_db_access : UserEntry → String → Bool → Bool)
    (user requested_db : String) (sett : UserSearchSettings)
    (hinfo : is_info_schema_req requested_db sett.db_name_cmp_mode = true) :
    find_user found anon_found db_names check_db_access user requested_db sett
      ≠ UserEntryType.DB_ACCESS_DENIED
    ∧ (∀ e, found = some e →
        check_database_exists db_names
          (eff_db_and_case requested_db sett.db_name_cmp_mode).1
          (eff_db_and_case requested_db sett.db_name_cmp_mode).2 = false →
        find_user found anon_found db_names check_db_access user requested_db sett
          = UserEntryType.BAD_DB) := by
  have hne : find_user_res found anon_found db_names check_db_access requested_db sett
      ≠ UserEntryType.DB_ACCESS_DENIED := by
    cases found with
    | some e =>
      simp only [find_user_res]
      split_ifs with h1 h2 <;> simp_all
    | none =>
      cases anon_found with
      | none =>
        simp only [find_user_res]
        split_ifs <;> simp
      | some a =>
        simp only [find_user_res]
        split_ifs <;> simp
  constructor
  · unfold find_user
    split_ifs with h
    · simp
    · exact hne
  · intro e hfound hexists
    subst hfound
    have hr : find_user_res (some e) anon_found db_names check_db_access requested_db sett
        = UserEntryType.BAD_DB := by
      simp only [find_user_res]
      rw [if_pos (is_info_schema_req_ne_empty requested_db sett.db_name_cmp_mode hinfo)]
      rw [hexists]
      rfl
    unfold find_user
    rw [hr]
    simp

/-- Witness for C9 (amended): even with a grant check that denies
everything, a request for `information_schema` that exists in the
database set does not produce DB_ACCESS_DENIED; and when it is missing
the result is BAD_DB. -/
theorem C9_info_schema_no_grant_check_witness :
    find_user (some ⟨"bob", "%", false⟩) none ["information_schema"]
      (fun _ _ _ => false) "bob" "information_schema"
      ⟨DBNameCmpMode.CASE_SENSITIVE, false, true⟩
      ≠ UserEntryType.DB_ACCESS_DENIED
    ∧ find_user (some ⟨"bob", "%", false⟩) none ["sales"]
      (fun _ _ _ => false) "bob" "information_schema"
      ⟨DBNameCmpMode.CASE_SENSITIVE, false, true⟩
      = UserEntryType.BAD_DB :=
  ⟨(C9_info_schema_no_grant_check (some ⟨"bob", "%", false⟩) none ["information_schema"]
      (fun _ _ _ => false) "bob" "information_schema"
      ⟨DBNameCmpMode.CASE_SENSITIVE, false, true⟩ (by decide)).1,
   (C9_info_schema_no_grant_check (some ⟨"bob", "%", false⟩) none ["sales"]
      (fun _ _ _ => false) "bob" "information_schema"
      ⟨DBNameCmpMode.CASE_SENSITIVE, false, true⟩ (by decide)).2
      ⟨"bob", "%", false⟩ rfl (by decide)⟩

/-! ### Claim theorem for KILL target resolution -/

/-- C10: a KILL naming the session id of an existing session whose
client protocol is not the MariaDB protocol resolves to an empty target
set: no backend thread ids are collected, no pending backend connection
is hung up (the target session is untouched), no auxiliary KILL query is
issued, and the initiating client still receives its KILL response
immediately. -/
theorem C10_kill_non_mariadb_session (registry : List SessionInfo) (sid : Nat)
    (s : SessionInfo)
    (hfind : registry.find? (fun t => t.sid == sid) = some s)
    (hproto : s.protocol_name ≠ MXS_MARIADB_PROTOCOL_NAME) :
    conn_kill_generate_target_list registry sid = ⟨[], [], []⟩
    ∧ conn_kill_queries (conn_kill_generate_target_list registry sid) = []
    ∧ kill_response_sent_immediately (conn_kill_generate_target_list registry sid)
        = true := by
  have h : conn_kill_generate_target_list registry sid = ⟨[], [], []⟩ := by
    unfold conn_kill_generate_target_list
    rw [hfind]
    simp only [conn_kill_process]
    rw [if_neg hproto]
  rw [h]
  exact ⟨rfl, rfl, rfl⟩

/-- Witness for C10: killing session 7, a NoSQL-protocol session with an
established backend connection, touches nothing and answers at once. -/
theorem C10_kill_non_mariadb_session_witness :
    conn_kill_generate_target_list [⟨7, "nosqlprotocol", [⟨44, 1⟩]⟩] 7 = ⟨[], [], []⟩
    ∧ kill_response_sent_immediately
        (conn_kill_generate_target_list [⟨7, "nosqlprotocol", [⟨44, 1⟩]⟩] 7) = true :=
  ⟨(C10_kill_non_mariadb_session [⟨7, "nosqlprotocol", [⟨44, 1⟩]⟩] 7
      ⟨7, "nosqlprotocol", [⟨44, 1⟩]⟩ (by decide) (by decide)).1,
   (C10_kill_non_mariadb_session [⟨7, "nosqlprotocol", [⟨44, 1⟩]⟩] 7
      ⟨7, "nosqlprotocol", [⟨44, 1⟩]⟩ (by decide) (by decide)).2.2⟩

end MaxScale
